import Mathlib

/-!
Verification of the nanodis in-memory data-structure server
(`src/nanodis/__init__.py`) against its natural-language specification.

The embedding is shallow:
* Python values that flow through the wire codec and the keyspace are the
  inductive `PyObj`.  Byte strings and text strings are both modelled as
  Lean `String`s (the payloads exercised here are ASCII, so `len(data)`
  agrees with `String.length`); `deque`s are Lean lists; floats and
  `time.time()` timestamps are exact rationals (`ℚ`).
* Python dicts (`self._kv`, `self._expiry_map`) are association lists with
  the usual lookup/replace/delete operations; `heapq` heaps are lists kept
  sorted by timestamp, with `heapq.heappush` modelled as ordered insertion
  and `heapq.heappop` as taking the head.  (`heapq` additionally compares
  the key on equal timestamps; that only affects the relative order of
  entries bearing the same timestamp and none of the properties proved
  here depend on it.)
* Fallible Python code returns `Except PyErr`; `CmdError` is the one
  catchable, user-visible error and carries its message, while
  `TypeError`/`AttributeError`/`KeyError` model the unhandled exceptions
  the source can raise.
-/

/-- A Python value as stored in the keyspace or carried by the protocol:
bytes, unicode str, int, float, bool, `None`, the `Error` namedtuple,
`datetime.datetime`, list/deque, dict and set. -/
inductive PyObj where
  | bytes (s : String)
  | str (s : String)
  | int (n : Int)
  | float (q : ℚ)
  | bool (b : Bool)
  | null
  | err (msg : String)
  | datetime (t : ℚ)
  | list (xs : List PyObj)
  | dict (entries : List (PyObj × PyObj))
  | set (xs : List PyObj)

mutual
/-- Structural equality on `PyObj`, standing in for Python `==` where the
server compares stored values (hash-field lookup, set membership).  Python's
cross-type numeric equality (`1 == 1.0 == True`) is not modelled; no claim
compares mixed numeric types. -/
def pyBeq : PyObj → PyObj → Bool
  | .bytes a, .bytes b => a == b
  | .str a, .str b => a == b
  | .int a, .int b => a == b
  | .float a, .float b => a == b
  | .bool a, .bool b => a == b
  | .null, .null => true
  | .err a, .err b => a == b
  | .datetime a, .datetime b => a == b
  | .list a, .list b => pyBeqList a b
  | .dict a, .dict b => pyBeqPairs a b
  | .set a, .set b => pyBeqList a b
  | _, _ => false

/-- Pointwise `pyBeq` on lists. -/
def pyBeqList : List PyObj → List PyObj → Bool
  | [], [] => true
  | a :: as_, b :: bs => pyBeq a b && pyBeqList as_ bs
  | _, _ => false

/-- Pointwise `pyBeq` on dict entries. -/
def pyBeqPairs : List (PyObj × PyObj) → List (PyObj × PyObj) → Bool
  | [], [] => true
  | (ka, va) :: as_, (kb, vb) :: bs => pyBeq ka kb && pyBeq va vb && pyBeqPairs as_ bs
  | _, _ => false
end

/-- Exceptions the source can raise.  `cmdError` is the catchable
`CmdError(message)`; the others model Python's built-in exceptions, which
the per-command error handling does not catch. -/
inductive PyErr where
  | typeError
  | attributeError
  | keyError
  | cmdError (msg : String)
deriving DecidableEq

/-- CRLF, the frame terminator of the wire protocol. -/
def crlf : String := "\r\n"

/-- Module-level `encode(s)`.  Its first statement is
`isinstance(s, encode)`: the second argument is the function `encode`
itself, not a type, so Python raises `TypeError` for every input and no
branch of the function body is ever reached. -/
def encode (_s : PyObj) : Except PyErr String := .error .typeError

/-- Module-level `decode(s)`.  Exactly like `encode`, its first statement
`isinstance(s, encode)` passes the function `encode` where a type is
required, so Python raises `TypeError` for every input. -/
def decode (_s : PyObj) : Except PyErr String := .error .typeError

/-- Truncation toward zero, the conversion `b':%d' % data` applies to a
float (`int(3.5) == 3`).  `Int` division in Lean truncates toward zero,
and the denominator of a `ℚ` is positive. -/
def pyTruncInt (q : ℚ) : Int := q.num / (q.den : Int)

mutual
/-- `ProtocolHandler._write(buf, data)`, the response encoder, producing
the bytes appended to the buffer (or the exception the branch raises):
* bytes → `$<len>\r\n<data>\r\n`;
* unicode str → the branch evaluates `b'^%d\r\n%s\r\n' % (len(bdata), data)`
  where `data` is still a `str`; bytes `%s` formatting requires a
  bytes-like object, so Python raises `TypeError`;
* `True`/`False` → `:1`/`:0` (tested before `int`, as in the source);
* int → `:<n>`; float → `:<trunc(n)>` (the `%d` conversion truncates);
* `Error` → the branch calls `encode(data.message)`, which always raises
  `TypeError` (see `encode`);
* list → `*<count>` then the encoded items; dict → `%<count>` then
  alternating encoded keys and values; set → `&<count>` then items;
* `None` → `$-1\r\n`;
* `datetime` → recurses on `str(data)`, i.e. on a unicode string, whose
  branch raises `TypeError` as above. -/
def pwrite : PyObj → Except PyErr String
  | .bytes s => .ok ("$" ++ toString s.length ++ crlf ++ s ++ crlf)
  | .str _ => .error .typeError
  | .bool b => .ok (":" ++ (if b then "1" else "0") ++ crlf)
  | .int n => .ok (":" ++ toString n ++ crlf)
  | .float q => .ok (":" ++ toString (pyTruncInt q) ++ crlf)
  | .err m =>
    match encode (.bytes m) with
    | .error e => .error e
    | .ok b => .ok ("-" ++ b ++ crlf)
  | .list xs =>
    match pwriteList xs with
    | .error e => .error e
    | .ok body => .ok ("*" ++ toString xs.length ++ crlf ++ body)
  | .dict d =>
    match pwritePairs d with
    | .error e => .error e
    | .ok body => .ok ("%" ++ toString d.length ++ crlf ++ body)
  | .set xs =>
    match pwriteList xs with
    | .error e => .error e
    | .ok body => .ok ("&" ++ toString xs.length ++ crlf ++ body)
  | .null => .ok ("$-1" ++ crlf)
  | .datetime _ => .error .typeError

/-- The `for item in data: self._write(buf, item)` loop of the list and
set branches; the first raised exception propagates. -/
def pwriteList : List PyObj → Except PyErr String
  | [] => .ok ""
  | x :: xs =>
    match pwrite x with
    | .error e => .error e
    | .ok s =>
      match pwriteList xs with
      | .error e => .error e
      | .ok rest => .ok (s ++ rest)

/-- The `for key in data: self._write(buf, key); self._write(buf, data[key])`
loop of the dict branch. -/
def pwritePairs : List (PyObj × PyObj) → Except PyErr String
  | [] => .ok ""
  | (k, v) :: xs =>
    match pwrite k with
    | .error e => .error e
    | .ok sk =>
      match pwrite v with
      | .error e => .error e
      | .ok sv =>
        match pwritePairs xs with
        | .error e => .error e
        | .ok rest => .ok (sk ++ sv ++ rest)
end

/-- `ProtocolHandler.handle_request(socket_file)`, the request decoder.
Its first statement is `first_byte = socket_error.read(1)`:
`socket_error` is the imported exception class (`socket.error`), not the
buffered socket file, and exception classes have no `read` attribute, so
every invocation raises `AttributeError` before a single byte of the
input is consumed.  The per-tag handler table below that line is dead
code. -/
def handle_request (_input : String) : Except PyErr PyObj := .error .attributeError

/-- Keys of the keyspace and the expiry map (byte strings on the wire). -/
abbrev Key := String

/-- Wall-clock time (`time.time()` returns a float; modelled exactly). -/
abbrev Time := ℚ

/-- The `Value` namedtuple: `Value(data_type, value)`. -/
structure Value where
  data_type : Nat
  value : PyObj

/-- Module-level constant `KV = 0`. -/
abbrev KV : Nat := 0

/-- Module-level constant `HASH = 1`. -/
abbrev HASH : Nat := 1

/-- Module-level constant `QUEUE = 2`. -/
abbrev QUEUE : Nat := 2

/-- Module-level constant `SET = 3`. -/
abbrev SET : Nat := 3

/-- The mutable state of a `QueueServer`: the keyspace `self._kv`, the
schedule heap `self._schedule`, the expiry heap `self._expiry` and the
authoritative expiry map `self._expiry_map`.  Heaps are lists kept sorted
by timestamp (see the header comment). -/
structure ServerState where
  kv : List (Key × Value)
  schedule : List (Time × PyObj)
  expiry : List (Time × Key)
  expiry_map : List (Key × Time)

/-- The state of a freshly constructed `QueueServer`. -/
def initState : ServerState := ⟨[], [], [], []⟩

/-- Dict lookup on an association list (`d[k]` / `d.get(k)`). -/
def alookup {α : Type} : List (Key × α) → Key → Option α
  | [], _ => none
  | (k, v) :: rest, key => if k = key then some v else alookup rest key

/-- Dict deletion (`del d[k]` / `d.pop(k, None)`): drop every binding of
the key (association lists built by `ainsert` bind each key once). -/
def aerase {α : Type} : List (Key × α) → Key → List (Key × α)
  | [], _ => []
  | (k, v) :: rest, key => if k = key then aerase rest key else (k, v) :: aerase rest key

/-- Dict assignment (`d[k] = v`): bind `key` to `v`, removing any previous
binding.  (Python updates in place, preserving insertion order; only
lookups matter to the properties proved here.) -/
def ainsert {α : Type} (l : List (Key × α)) (key : Key) (v : α) : List (Key × α) :=
  (key, v) :: aerase l key

/-- `QueueServer.check_expired(key, ts)`: true iff the key is in the
expiry map with a deadline strictly before `ts`. -/
def check_expired (st : ServerState) (key : Key) (now : Time) : Bool :=
  match alookup st.expiry_map key with
  | some deadline => decide (deadline < now)
  | none => false

/-- `QueueServer.unexpire(key)`: `self._expiry_map.pop(key, None)`.  The
stale heap entry, if any, is left in place. -/
def unexpire (key : Key) (st : ServerState) : ServerState :=
  { st with expiry_map := aerase st.expiry_map key }

/-- `heapq.heappush(self._expiry, (eta, key))`: ordered insertion into the
timestamp-sorted list modelling the heap. -/
def heapPush : List (Time × Key) → Time × Key → List (Time × Key)
  | [], p => [p]
  | q :: rest, p => if p.1 < q.1 then p :: q :: rest else q :: heapPush rest p

/-- `QueueServer.expire(key, seconds)`: record `now + seconds` as the
authoritative deadline and push a heap entry.  The keyspace is not
consulted, so the deadline can refer to a key that is absent from it. -/
def expire (key : Key) (seconds : Time) (st : ServerState) (now : Time) : ServerState :=
  let eta := now + seconds
  { st with
    expiry_map := ainsert st.expiry_map key eta
    expiry := heapPush st.expiry (eta, key) }

/-- The `while self._expiry:` loop of `QueueServer.clean_expired`.  Pops
`(expires, key)` entries while `expires ≤ ts`; pushes the first
still-future entry back and stops.  For a popped entry that matches the
authoritative map (`self._expiry_map.get(key) == expires`) the source runs
`del self._expiry_map[key]` and then `del self._kv[key]`; the second
`del` raises `KeyError` when the key is absent from the keyspace, after
the map entry has already been removed.  Returns the count of reclaimed
keys together with the resulting heap, expiry map and keyspace. -/
def cleanLoop : List (Time × Key) → List (Key × Time) → List (Key × Value) → Time → Nat →
    Except PyErr Nat × List (Time × Key) × List (Key × Time) × List (Key × Value)
  | [], em, kv, _, n => (.ok n, [], em, kv)
  | (expires, key) :: rest, em, kv, ts, n =>
    if ts < expires then (.ok n, (expires, key) :: rest, em, kv)
    else if alookup em key = some expires then
      if (alookup kv key).isSome then cleanLoop rest (aerase em key) (aerase kv key) ts (n + 1)
      else (.error .keyError, rest, aerase em key, kv)
    else cleanLoop rest em kv ts n

/-- `QueueServer.clean_expired(ts)`: run the sweep loop on the server
state. -/
def clean_expired (st : ServerState) (now : Time) : Except PyErr Nat × ServerState :=
  let r := cleanLoop st.expiry st.expiry_map st.kv now 0
  (r.1, { st with expiry := r.2.1, expiry_map := r.2.2.1, kv := r.2.2.2 })

/-- The empty container `check_datatype` creates for a missing key:
`{}` for `HASH`, `deque()` for `QUEUE`, `set()` for `SET` and `''` for
`KV`, following the source's `elif` chain.  (For a `data_type` outside
the four constants the source would hit an unbound local; the server only
ever passes the four constants.) -/
def emptyValue (data_type : Nat) : PyObj :=
  if data_type = HASH then .dict []
  else if data_type = QUEUE then .list []
  else if data_type = SET then .set []
  else .str ""

/-- `QueueServer.check_datatype(data_type, key, set_missing, subtype)`:
first lazily drop the key if it is expired; then, if the key is present,
raise `CmdError('Operation agains wrong key type.')` (the source's
literal message) when its variant differs from `data_type` or when the
optional scalar subtype test fails; if the key is absent and
`set_missing`, create an empty container of the required variant.
`subtype` is modelled as an optional predicate (`isinstance(value, sub)`
in the source).  The returned state reflects exactly the mutations
performed before a raise (none, in the error cases). -/
def check_datatype (data_type : Nat) (key : Key) (set_missing : Bool)
    (subtype : Option (PyObj → Bool)) (st : ServerState) (now : Time) :
    Except PyErr Unit × ServerState :=
  let st1 := if (alookup st.kv key).isSome && check_expired st key now
             then { st with kv := aerase st.kv key } else st
  match alookup st1.kv key with
  | some v =>
    if v.data_type ≠ data_type then
      (.error (.cmdError "Operation agains wrong key type."), st1)
    else
      match subtype with
      | some sub =>
        if sub v.value then (.ok (), st1)
        else (.error (.cmdError "Operation agains wrong key type."), st1)
      | none => (.ok (), st1)
  | none =>
    if set_missing then
      (.ok (), { st1 with kv := ainsert st1.kv key ⟨data_type, emptyValue data_type⟩ })
    else (.ok (), st1)

/-- The `enforce_datatype(data_type, set_missing, subtype)` decorator:
run `check_datatype` and, if it did not raise, the wrapped method on the
resulting state. -/
def enforce_datatype {α : Type} (data_type : Nat) (set_missing : Bool)
    (subtype : Option (PyObj → Bool))
    (method : Key → ServerState → Time → Except PyErr α × ServerState)
    (key : Key) (st : ServerState) (now : Time) : Except PyErr α × ServerState :=
  match check_datatype data_type key set_missing subtype st now with
  | (.error e, st1) => (.error e, st1)
  | (.ok _, st1) => method key st1 now

/-- `QueueServer.kv_get(key)`: the stored value when the key is present
and not expired, else `None`.  The source performs no deletion here. -/
def kv_get (key : Key) (st : ServerState) (now : Time) : Option PyObj :=
  match alookup st.kv key with
  | some v => if check_expired st key now then none else some v.value
  | none => none

/-- `QueueServer.kv_exists(key)`: `1` iff present and not expired.  No
deletion is performed. -/
def kv_exists (key : Key) (st : ServerState) (now : Time) : Nat :=
  match alookup st.kv key with
  | some _ => if check_expired st key now then 0 else 1
  | none => 0

/-- `QueueServer.kv_mget(*keys)`: per key, the stored value when present
and not expired, else `None`.  No deletion is performed. -/
def kv_mget (keys : List Key) (st : ServerState) (now : Time) : List (Option PyObj) :=
  keys.map fun key => kv_get key st now

/-- `QueueServer.kv_mpop(*keys)`: per key, pop and return the stored value
when present and not expired, else accumulate `None`.  An expired key is
left in the keyspace (only `self._kv.pop` on the live branch mutates). -/
def kv_mpop : List Key → ServerState → Time → List (Option PyObj) × ServerState
  | [], st, _ => ([], st)
  | key :: rest, st, now =>
    match alookup st.kv key with
    | some v =>
      if check_expired st key now then
        let r := kv_mpop rest st now
        (none :: r.1, r.2)
      else
        let r := kv_mpop rest { st with kv := aerase st.kv key } now
        (some v.value :: r.1, r.2)
    | none =>
      let r := kv_mpop rest st now
      (none :: r.1, r.2)

/-- The variant `QueueServer.kv_set` assigns from the shape of the value:
dict → `HASH`, list → `QUEUE` (the source wraps the list in a `deque`,
which holds the same elements), set → `SET`, anything else → `KV`. -/
def py_datatype : PyObj → Nat
  | .dict _ => HASH
  | .list _ => QUEUE
  | .set _ => SET
  | _ => KV

/-- `QueueServer.kv_set(key, value)`: clear any pending TTL via
`unexpire`, then bind the key to a fresh `Value`; returns `1`. -/
def kv_set (key : Key) (value : PyObj) (st : ServerState) : Nat × ServerState :=
  let st1 := unexpire key st
  (1, { st1 with kv := ainsert st1.kv key ⟨py_datatype value, value⟩ })

/-- `QueueServer.kv_setex(key, value, expires)`: `kv_set` followed by
`expire`; returns `1`. -/
def kv_setex (key : Key) (value : PyObj) (expires : Time) (st : ServerState)
    (now : Time) : Nat × ServerState :=
  (1, expire key expires (kv_set key value st).2 now)

/-- `QueueServer.rpush(key, *values)` (decorated with
`@enforce_datatype(QUEUE)`): extend the stored deque on the right; returns
the number of values pushed.  The fallback branches model the unhandled
exceptions Python would raise if the entry were missing or held a
non-deque payload; `enforce_datatype(QUEUE)` makes them unreachable. -/
def rpush (key : Key) (values : List PyObj) : ServerState → Time →
    Except PyErr Nat × ServerState :=
  enforce_datatype QUEUE true none (fun k st _ =>
    match alookup st.kv k with
    | some v =>
      match v.value with
      | .list q => (.ok values.length, { st with kv := ainsert st.kv k ⟨v.data_type, .list (q ++ values)⟩ })
      | _ => (.error .attributeError, st)
    | none => (.error .keyError, st)) key

/-- Python sequence slicing `l[b:e]` on a list: negative indices count
from the tail, indices are clamped to `[0, len]`, the end index is
exclusive, and a missing end index means "to the end". -/
def pySlice {α : Type} (l : List α) (b : Int) (e : Option Int) : List α :=
  let n : Int := l.length
  let b1 : Int := if b < 0 then max (n + b) 0 else min b n
  let e1 : Int := match e with
    | none => n
    | some ei => if ei < 0 then max (n + ei) 0 else min ei n
  (l.drop b1.toNat).take (e1 - b1).toNat

/-- `QueueServer.lrange(key, begin, end=None)` (decorated with
`@enforce_datatype(QUEUE)`): `list(self._kv[key].value)[begin:end]`. -/
def lrange (key : Key) (begin_ : Int) (end_ : Option Int) : ServerState → Time →
    Except PyErr (List PyObj) × ServerState :=
  enforce_datatype QUEUE true none (fun k st _ =>
    match alookup st.kv k with
    | some v =>
      match v.value with
      | .list q => (.ok (pySlice q begin_ end_), st)
      | _ => (.error .typeError, st)
    | none => (.error .keyError, st)) key

/-- Python dict assignment `value[field] = v` on the entries of a stored
hash: overwrite the binding if the field is present, else append it. -/
def dinsert (d : List (PyObj × PyObj)) (field value : PyObj) : List (PyObj × PyObj) :=
  if (d.find? fun p => pyBeq p.1 field).isSome then
    d.map fun p => if pyBeq p.1 field then (p.1, value) else p
  else d ++ [(field, value)]

/-- `QueueServer.hset(key, field, value)` (decorated with
`@enforce_datatype(HASH)`): bind the field in the stored dict; returns
`1`. -/
def hset (key : Key) (field value : PyObj) : ServerState → Time →
    Except PyErr Nat × ServerState :=
  enforce_datatype HASH true none (fun k st _ =>
    match alookup st.kv k with
    | some v =>
      match v.value with
      | .dict d => (.ok 1, { st with kv := ainsert st.kv k ⟨v.data_type, .dict (dinsert d field value)⟩ })
      | _ => (.error .typeError, st)
    | none => (.error .keyError, st)) key

/-- Python set intersection `src & other` restricted to the represented
sets: the members of `src` that also occur in `other`. -/
def intersectPy (src other : List PyObj) : List PyObj :=
  src.filter fun x => other.any fun y => pyBeq x y

/-- The `for key in keys:` loop of `QueueServer.sintersec`.  The source's
first statement in the loop body is `self.check_expired(SET, key)`: it
passes the constant `SET` (the integer 3) as the key and the key as the
timestamp, so it looks up the integer 3 in the expiry map — never present,
as the map is keyed by byte strings — returns `False`, and its result is
discarded; the call mutates nothing and is therefore omitted here.  The
loop then evaluates `src &= self._kv[key].value`: a missing key raises
`KeyError`, and a stored value that is not a set (the payload of a hash,
list or scalar entry) makes `set.__iand__` raise `TypeError`.  No
`CmdError` is ever produced by this loop. -/
def sinterLoop : List PyObj → List Key → ServerState → Except PyErr (List PyObj)
  | src, [], _ => .ok src
  | src, key :: rest, st =>
    match alookup st.kv key with
    | none => .error .keyError
    | some v =>
      match v.value with
      | .set m => sinterLoop (intersectPy src m) rest st
      | _ => .error .typeError

/-- `QueueServer.sintersec(key, *keys)` (decorated with
`@enforce_datatype(SET)`, which checks only the first key): start from a
copy of the first stored set and fold `sinterLoop` over the remaining
keys.  (`QueueServer.sintersec_store` runs the identical loop before
storing the result.) -/
def sintersec (key : Key) (keys : List Key) : ServerState → Time →
    Except PyErr (List PyObj) × ServerState :=
  enforce_datatype SET true none (fun k st _ =>
    match alookup st.kv k with
    | some v =>
      match v.value with
      | .set s =>
        match sinterLoop s keys st with
        | .ok out => (.ok out, st)
        | .error e => (.error e, st)
      | _ => (.error .typeError, st)
    | none => (.error .keyError, st)) key

/-- The pickled snapshot: `{'kv': ..., 'schedule': ...}` as produced by
`QueueServer._get_state`. -/
structure DiskState where
  kv : List (Key × Value)
  schedule : List (Time × PyObj)

/-- Python `original.update(updates)` on dicts modelled as association
lists: assign every binding of `updates` into `original` in order, so for
a key bound in both, the binding from `updates` wins. -/
def dict_update {α : Type} (original updates : List (Key × α)) : List (Key × α) :=
  updates.foldl (fun acc p => ainsert acc p.1 p.2) original

/-- `QueueServer._set_state(state, merge)`: without `merge`, replace
keyspace and schedule by the loaded ones; with `merge` (the `MERGE`
command path via `merge_from_disk`/`load_from_disk`), the source runs
`merge(state['kv'], self._kv)` whose body is
`original.update(updates); return original` — the loaded keyspace updated
with the in-memory one, so the in-memory binding wins on a collision —
and replaces the schedule by the loaded one.  The expiry index is not
touched on either path. -/
def set_state (state : DiskState) (st : ServerState) (merge : Bool) : ServerState :=
  if merge then
    { st with kv := dict_update state.kv st.kv, schedule := state.schedule }
  else
    { st with kv := state.kv, schedule := state.schedule }

/-- `QueueServer._decode_timestamp(timestamp)`.  Its first statement is
`timestamp = decode(timestamp)`, and `decode` raises `TypeError` for
every input (see `decode`), so the `strptime` call and the
`CmdError('Timestamp must be formatted Y-m-d H:M:S')` branch below it are
dead code; the second arm here is unreachable. -/
def decode_timestamp (timestamp : PyObj) : Except PyErr Time :=
  match decode timestamp with
  | .error e => .error e
  | .ok _ => .error .typeError

/-- `heapq.heappush(self._schedule, (dt, data))`, ordered by timestamp. -/
def schedPush : List (Time × PyObj) → Time × PyObj → List (Time × PyObj)
  | [], p => [p]
  | q :: rest, p => if p.1 < q.1 then p :: q :: rest else q :: schedPush rest p

/-- `QueueServer.schedule_add(timestamp, data)`: parse the timestamp and
push `(dt, data)` onto the schedule heap, returning `1`.  The parse
propagates the `TypeError` raised inside `decode`. -/
def schedule_add (timestamp payload : PyObj) (st : ServerState) :
    Except PyErr Nat × ServerState :=
  match decode_timestamp timestamp with
  | .error e => (.error e, st)
  | .ok dt => (.ok 1, { st with schedule := schedPush st.schedule (dt, payload) })

/-- The `while self._schedule and self._schedule[0][0] <= dt:` drain loop
of `QueueServer.schedule_read`. -/
def schedDrain : List (Time × PyObj) → Time → List PyObj × List (Time × PyObj)
  | [], _ => ([], [])
  | (t, d) :: rest, dt =>
    if t ≤ dt then
      let r := schedDrain rest dt
      (d :: r.1, r.2)
    else ([], (t, d) :: rest)

/-- `QueueServer.schedule_read(timestamp)`: parse the timestamp and drain
every schedule entry up to it.  As with `schedule_add`, the parse always
propagates `TypeError`. -/
def schedule_read (timestamp : PyObj) (st : ServerState) :
    Except PyErr (List PyObj) × ServerState :=
  match decode_timestamp timestamp with
  | .error e => (.error e, st)
  | .ok dt =>
    let r := schedDrain st.schedule dt
    (.ok r.1, { st with schedule := r.2 })

/-- Looking up the key just inserted yields the inserted value. -/
theorem alookup_ainsert_self {α : Type} (l : List (Key × α)) (k : Key) (v : α) :
    alookup (ainsert l k v) k = some v := by
  simp [ainsert, alookup]

/-- Erasing a key removes every binding of it. -/
theorem alookup_aerase_self {α : Type} (l : List (Key × α)) (k : Key) :
    alookup (aerase l k) k = none := by
  induction l with
  | nil => rfl
  | cons p rest ih =>
    obtain ⟨k1, v1⟩ := p
    by_cases h : k1 = k
    · simpa [aerase, h] using ih
    · simpa [aerase, alookup, h] using ih

/-- Erasing one key leaves lookups of any other key unchanged. -/
theorem alookup_aerase_ne {α : Type} (l : List (Key × α)) (k k1 : Key) (h : k ≠ k1) :
    alookup (aerase l k1) k = alookup l k := by
  induction l with
  | nil => rfl
  | cons p rest ih =>
    obtain ⟨k2, v2⟩ := p
    by_cases h2 : k2 = k1
    · subst h2
      simpa [aerase, alookup, Ne.symm h] using ih
    · by_cases h3 : k2 = k
      · simp [aerase, alookup, h2, h3, h]
      · simpa [aerase, alookup, h2, h3] using ih

/-- Inserting one key leaves lookups of any other key unchanged. -/
theorem alookup_ainsert_ne {α : Type} (l : List (Key × α)) (k k1 : Key) (v : α)
    (h : k ≠ k1) : alookup (ainsert l k1 v) k = alookup l k := by
  simp [ainsert, alookup, Ne.symm h, alookup_aerase_ne l k k1 h]

/-- A key that occurs in no binding looks up to `none`. -/
theorem alookup_eq_none {α : Type} (l : List (Key × α)) (k : Key)
    (h : k ∉ l.map Prod.fst) : alookup l k = none := by
  induction l with
  | nil => rfl
  | cons p rest ih =>
    obtain ⟨k1, v1⟩ := p
    simp only [List.map_cons, List.mem_cons] at h
    push_neg at h
    simp [alookup, Ne.symm h.1, ih h.2]

/-- A key with no authoritative expiry entry is never touched by the
sweep: its keyspace binding survives (on success and on failure alike)
and it stays absent from the expiry map. -/
theorem cleanLoop_preserve (heap : List (Time × Key)) :
    ∀ (em : List (Key × Time)) (kv : List (Key × Value)) (now : Time) (n : Nat) (k : Key),
    alookup em k = none →
    alookup (cleanLoop heap em kv now n).2.2.2 k = alookup kv k ∧
    alookup (cleanLoop heap em kv now n).2.2.1 k = none := by
  induction heap with
  | nil => intro em kv now n k hk; exact ⟨rfl, hk⟩
  | cons q rest ih =>
    intro em kv now n k hk
    obtain ⟨e, k1⟩ := q
    by_cases h1 : now < e
    · simp only [cleanLoop, if_pos h1]
      exact ⟨trivial, hk⟩
    · by_cases h2 : alookup em k1 = some e
      · have hne : k1 ≠ k := by
          intro hh
          subst hh
          rw [hk] at h2
          exact Option.noConfusion h2
        have hek : alookup (aerase em k1) k = none := by
          rw [alookup_aerase_ne em k k1 (Ne.symm hne)]
          exact hk
        by_cases h3 : (alookup kv k1).isSome = true
        · simp only [cleanLoop, if_neg h1, if_pos h2, if_pos h3]
          refine ⟨?_, (ih _ _ now (n + 1) k hek).2⟩
          rw [(ih _ _ now (n + 1) k hek).1,
            alookup_aerase_ne kv k k1 (Ne.symm hne)]
        · simp only [cleanLoop, if_neg h1, if_pos h2, if_neg h3]
          exact ⟨trivial, hek⟩
      · simp only [cleanLoop, if_neg h1, if_neg h2]
        exact ih em kv now n k hk

/-- On a timestamp-sorted heap, a successful sweep leaves only entries
whose deadline is strictly in the future. -/
theorem cleanLoop_ok_heap (heap : List (Time × Key)) :
    ∀ (em : List (Key × Time)) (kv : List (Key × Value)) (now : Time) (n : Nat),
    List.Pairwise (fun a b : Time × Key => a.1 ≤ b.1) heap →
    (∃ m, (cleanLoop heap em kv now n).1 = Except.ok m) →
    ∀ p ∈ (cleanLoop heap em kv now n).2.1, now < p.1 := by
  induction heap with
  | nil =>
    intro em kv now n _ _ p hp
    simp [cleanLoop] at hp
  | cons q rest ih =>
    intro em kv now n hs hok p hp
    obtain ⟨e, k1⟩ := q
    rw [List.pairwise_cons] at hs
    by_cases h1 : now < e
    · simp only [cleanLoop, if_pos h1] at hp
      rcases List.mem_cons.mp hp with h | h
      · rw [h]; exact h1
      · exact lt_of_lt_of_le h1 (hs.1 p h)
    · by_cases h2 : alookup em k1 = some e
      · by_cases h3 : (alookup kv k1).isSome = true
        · simp only [cleanLoop, if_neg h1, if_pos h2, if_pos h3] at hp hok
          exact ih _ _ now _ hs.2 hok p hp
        · simp only [cleanLoop, if_neg h1, if_pos h2, if_neg h3] at hok
          obtain ⟨m, hm⟩ := hok
          exact absurd hm (by simp)
      · simp only [cleanLoop, if_neg h1, if_neg h2] at hp hok
        exact ih _ _ now _ hs.2 hok p hp

/-- When every authoritative expiry entry that is already due refers to a
key present in the keyspace, the sweep completes without raising. -/
theorem cleanLoop_ok (heap : List (Time × Key)) :
    ∀ (em : List (Key × Time)) (kv : List (Key × Value)) (now : Time) (n : Nat),
    (∀ k t, alookup em k = some t → t ≤ now → (alookup kv k).isSome = true) →
    ∃ m, (cleanLoop heap em kv now n).1 = Except.ok m := by
  induction heap with
  | nil => intro em kv now n _; exact ⟨n, rfl⟩
  | cons q rest ih =>
    intro em kv now n hcov
    obtain ⟨e, k1⟩ := q
    by_cases h1 : now < e
    · exact ⟨n, by simp [cleanLoop, h1]⟩
    · by_cases h2 : alookup em k1 = some e
      · have h3 : (alookup kv k1).isSome = true := hcov k1 e h2 (le_of_not_lt h1)
        have hcov1 : ∀ k t, alookup (aerase em k1) k = some t → t ≤ now →
            (alookup (aerase kv k1) k).isSome = true := by
          intro k t hk ht
          by_cases hkk : k = k1
          · subst hkk
            rw [alookup_aerase_self] at hk
            exact absurd hk (by simp)
          · rw [alookup_aerase_ne em k k1 hkk] at hk
            rw [alookup_aerase_ne kv k k1 hkk]
            exact hcov k t hk ht
        obtain ⟨m, hm⟩ := ih (aerase em k1) (aerase kv k1) now (n + 1) hcov1
        refine ⟨m, ?_⟩
        simp only [cleanLoop, if_neg h1, if_pos h2, if_pos h3]
        exact hm
      · obtain ⟨m, hm⟩ := ih em kv now n hcov
        refine ⟨m, ?_⟩
        simp only [cleanLoop, if_neg h1, if_neg h2]
        exact hm

/-- A key not bound in the updates dict looks up in the original dict
after `original.update(updates)`. -/
theorem alookup_dict_update_right {α : Type} (upd : List (Key × α)) :
    ∀ (base : List (Key × α)) (k : Key), alookup upd k = none →
    alookup (dict_update base upd) k = alookup base k := by
  induction upd with
  | nil => intro base k _; rfl
  | cons p rest ih =>
    intro base k hl
    obtain ⟨k1, v1⟩ := p
    have step : dict_update base ((k1, v1) :: rest) = dict_update (ainsert base k1 v1) rest := rfl
    rw [step]
    by_cases hk : k1 = k
    · subst hk
      simp [alookup] at hl
    · simp only [alookup, if_neg hk] at hl
      rw [ih (ainsert base k1 v1) k hl,
        alookup_ainsert_ne base k k1 v1 (Ne.symm hk)]

/-- A key bound in the updates dict keeps its update binding after
`original.update(updates)` (first binding, assuming the updates dict binds
each key once). -/
theorem alookup_dict_update_left {α : Type} (upd : List (Key × α)) :
    ∀ (base : List (Key × α)) (k : Key) (v : α), (upd.map Prod.fst).Nodup →
    alookup upd k = some v → alookup (dict_update base upd) k = some v := by
  induction upd with
  | nil => intro base k v _ h; exact absurd h (by simp [alookup])
  | cons p rest ih =>
    intro base k v hnd hl
    obtain ⟨k1, v1⟩ := p
    simp only [List.map_cons, List.nodup_cons] at hnd
    have step : dict_update base ((k1, v1) :: rest) = dict_update (ainsert base k1 v1) rest := rfl
    rw [step]
    by_cases hk : k1 = k
    · subst hk
      have hv : v1 = v := by simpa [alookup] using hl
      rw [alookup_dict_update_right rest (ainsert base k1 v1) k1
          (alookup_eq_none rest k1 hnd.1),
        alookup_ainsert_self, hv]
    · simp only [alookup, if_neg hk] at hl
      exact ih (ainsert base k1 v1) k v hnd.2 hl

/-- C1 (code_bug): the claimed encode/decode round trip fails on the
source.  Encoding a unicode string raises `TypeError` (`_write` formats
the still-`str` `data` with bytes `%s`), encoding an `Error` raises
`TypeError` (through the broken `encode`), a float is truncated by the
`%d` conversion — 7/2 is framed as the integer line `:3`, which no reader
could decode back to 3.5 — a timestamp raises `TypeError` through the
unicode branch, and `handle_request` raises `AttributeError` on every
input because it reads from `socket_error` instead of `socket_file`, so
no encoded value can be decoded at all. -/
theorem C1_roundtrip_code_bug :
    pwrite (PyObj.str "abc") = .error .typeError ∧
    pwrite (PyObj.err "oops") = .error .typeError ∧
    pwrite (PyObj.float (mkRat 7 2)) = .ok ":3\r\n" ∧
    pwrite (PyObj.datetime 0) = .error .typeError ∧
    handle_request "$3\r\nabc\r\n" = .error .attributeError :=
  ⟨rfl, rfl, rfl, rfl, rfl⟩

/-- The keyspace state used to refute and to witness C2: the key `"k"`
holds a list (the `QUEUE` variant). -/
def stC2 : ServerState := ⟨[("k", ⟨QUEUE, .list []⟩)], [], [], []⟩

/-- C2 counterexample: `HSET` against the list-valued key `"k"` raises
`CmdError` carrying the source's literal message
`"Operation agains wrong key type."`, which differs from the claimed
`"operation against wrong key type"`. -/
theorem C2_counterexample :
    hset "k" (PyObj.bytes "f") (PyObj.bytes "v") stC2 0 =
      (.error (.cmdError "Operation agains wrong key type."), stC2) ∧
    "Operation agains wrong key type." ≠ "operation against wrong key type" :=
  ⟨rfl, by decide⟩

/-- C2 (amended): for every required variant, wrapped handler and key
holding a live (non-expired) value of a different variant, the uniform
type-enforcement pre-check aborts the command with
`CmdError("Operation agains wrong key type.")` — the source's literal
message — and returns the server state unchanged: keyspace, expiry index
and schedule are exactly as before. -/
theorem C2_type_enforcement {α : Type} (data_type : Nat) (set_missing : Bool)
    (subtype : Option (PyObj → Bool))
    (method : Key → ServerState → Time → Except PyErr α × ServerState)
    (key : Key) (st : ServerState) (now : Time) (v : Value)
    (hv : alookup st.kv key = some v)
    (hexp : check_expired st key now = false)
    (hdt : v.data_type ≠ data_type) :
    enforce_datatype data_type set_missing subtype method key st now =
      (.error (.cmdError "Operation agains wrong key type."), st) := by
  unfold enforce_datatype check_datatype
  simp [hv, hexp, hdt]

/-- C2 witness: the amended theorem applied to `HSET`'s enforcement of
`HASH` against the list-valued key of `stC2`. -/
theorem C2_type_enforcement_witness :
    alookup stC2.kv "k" = some ⟨QUEUE, PyObj.list []⟩ ∧
    check_expired stC2 "k" 0 = false ∧
    (QUEUE : Nat) ≠ HASH ∧
    enforce_datatype HASH true none
        (fun _ st _ => ((Except.ok 1 : Except PyErr Nat), st)) "k" stC2 0 =
      (.error (.cmdError "Operation agains wrong key type."), stC2) :=
  ⟨rfl, rfl, by decide,
    C2_type_enforcement HASH true none _ "k" stC2 0 ⟨QUEUE, PyObj.list []⟩ rfl rfl (by decide)⟩

/-- The state used around C3: key `"k"` holds a scalar whose expiry
deadline 5 has passed by time 10. -/
def stC3 : ServerState := ⟨[("k", ⟨KV, .bytes "v"⟩)], [], [(5, "k")], [("k", 5)]⟩

/-- C3 counterexample: at time 10 the expired key `"k"` is treated as
absent by `GET` and by `MPOP`, yet `MPOP` — an observation — returns the
state unchanged and the keyspace entry is still present, contradicting
"the keyspace entry is removed upon that next observation".
(`kv_get` and `kv_exists` perform no mutation at all in the source.) -/
theorem C3_counterexample :
    kv_get "k" stC3 10 = none ∧
    kv_mpop ["k"] stC3 10 = ([none], stC3) ∧
    (alookup stC3.kv "k").isSome = true :=
  ⟨rfl, rfl, rfl⟩

/-- C3 (amended): a key whose expiry deadline has passed is treated as
absent by all readers (`GET` returns null, `EXISTS` returns 0,
`MGET`/`MPOP` accumulate null), but only the type-checked pre-check
(`check_datatype`) removes the keyspace entry on observation;
`GET`/`EXISTS`/`MGET`/`MPOP` leave the entry in place (`MPOP` returns
the state unchanged), so it is reclaimed only by a later type-checked
access or by the reclamation sweep. -/
theorem C3_lazy_expiry (st : ServerState) (key : Key) (now deadline : Time)
    (hm : alookup st.expiry_map key = some deadline)
    (hd : deadline < now)
    (hk : (alookup st.kv key).isSome = true) :
    kv_get key st now = none ∧
    kv_exists key st now = 0 ∧
    kv_mget [key] st now = [none] ∧
    kv_mpop [key] st now = ([none], st) ∧
    ∀ data_type subtype,
      check_datatype data_type key false subtype st now =
        (.ok (), { st with kv := aerase st.kv key }) := by
  have hexp : check_expired st key now = true := by
    simp [check_expired, hm, hd]
  obtain ⟨v, hv⟩ := Option.isSome_iff_exists.mp hk
  refine ⟨?_, ?_, ?_, ?_, ?_⟩
  · simp [kv_get, hv, hexp]
  · simp [kv_exists, hv, hexp]
  · simp [kv_mget, kv_get, hv, hexp]
  · simp [kv_mpop, hv, hexp]
  · intro data_type subtype
    unfold check_datatype
    simp only [hv, Option.isSome_some, hexp, Bool.and_self, if_true]
    rw [alookup_aerase_self]
    simp

/-- C3 witness: the amended theorem applied to the concrete expired
state `stC3` at time 10. -/
theorem C3_lazy_expiry_witness :
    alookup stC3.expiry_map "k" = some 5 ∧ (5 : Time) < 10 ∧
    (alookup stC3.kv "k").isSome = true ∧
    (kv_get "k" stC3 10 = none ∧
      kv_exists "k" stC3 10 = 0 ∧
      kv_mget ["k"] stC3 10 = [none] ∧
      kv_mpop ["k"] stC3 10 = ([none], stC3) ∧
      ∀ data_type subtype,
        check_datatype data_type "k" false subtype stC3 10 =
          (.ok (), { stC3 with kv := aerase stC3.kv "k" })) :=
  ⟨rfl, by decide, rfl, C3_lazy_expiry stC3 "k" 10 5 rfl (by decide) rfl⟩

/-- C4 (code_bug): the connection loop cannot deliver the claimed `-`
frame.  `request_response` first calls `handle_request`, which raises
`AttributeError` on every input (it reads from `socket_error`), so no
command handler ever runs and `command_errors` is never incremented; and
even given a raised `CmdError`, serialising the `Error` reply calls
`encode`, which raises `TypeError`, so no `-` frame could reach the
client. -/
theorem C4_error_reply_code_bug :
    handle_request "*4\r\n$4\r\nHSET\r\n$1\r\nk\r\n$1\r\nf\r\n$1\r\nv\r\n" = .error .attributeError ∧
    pwrite (PyObj.err "Operation agains wrong key type.") = .error .typeError :=
  ⟨rfl, rfl⟩

/-- C5 counterexample: `EXPIRE` on the missing key `"k"` records a
deadline (succeeding, as the spec requires), and the sweep at a later
time pops that due, current entry, removes the expiry-map entry and then
raises `KeyError` on `del self._kv[key]` — the sweep does not complete
without failure. -/
theorem C5_counterexample :
    clean_expired (expire "k" 5 initState 0) 10 = (.error .keyError, initState) := by
  have h5 : ¬ ((10 : Time) < 5) := by norm_num
  simp [clean_expired, expire, heapPush, initState, cleanLoop, alookup, aerase, ainsert, h5]

/-- C5 (amended): the sweep pops heap entries while the top's timestamp
is ≤ now; on a timestamp-sorted heap a successful sweep leaves only
entries with strictly future deadlines (first conjunct); whenever every
due authoritative expiry entry refers to a key present in the keyspace,
the sweep succeeds (second conjunct) — for each popped pair it deletes
both the map and keyspace entries exactly when `expiry_map[key] == ts`
and discards stale entries silently; but when the top entry is due and
current while its key is absent from the keyspace — as after `EXPIRE` on
a missing key — the sweep removes the expiry-map entry and then raises
`KeyError`, leaving the keyspace untouched (third conjunct), instead of
completing without failure as claimed. -/
theorem C5_sweep (heap : List (Time × Key)) (em : List (Key × Time))
    (kv : List (Key × Value)) (now : Time)
    (hs : List.Pairwise (fun a b : Time × Key => a.1 ≤ b.1) heap) :
    ((∃ m, (cleanLoop heap em kv now 0).1 = Except.ok m) →
      ∀ p ∈ (cleanLoop heap em kv now 0).2.1, now < p.1) ∧
    ((∀ k t, alookup em k = some t → t ≤ now → (alookup kv k).isSome = true) →
      ∃ m, (cleanLoop heap em kv now 0).1 = Except.ok m) ∧
    (∀ e k rest, heap = (e, k) :: rest → e ≤ now →
      alookup em k = some e → alookup kv k = none →
      cleanLoop heap em kv now 0 = (.error .keyError, rest, aerase em k, kv)) := by
  refine ⟨cleanLoop_ok_heap heap em kv now 0 hs, cleanLoop_ok heap em kv now 0, ?_⟩
  intro e k rest hh he hm hkv
  subst hh
  simp [cleanLoop, not_lt.mpr he, hm, hkv]

/-- The concrete sweep instance witnessing C5: one due current entry
whose key is present in the keyspace, followed by one future entry. -/
def heapC5 : List (Time × Key) := [(3, "a"), (7, "b")]

/-- The expiry map of the C5 witness instance. -/
def emC5 : List (Key × Time) := [("a", 3)]

/-- The keyspace of the C5 witness instance. -/
def kvC5 : List (Key × Value) := [("a", ⟨KV, PyObj.null⟩)]

/-- C5 witness: the amended sweep theorem applied at the concrete heap
`heapC5` at time 5. -/
theorem C5_sweep_witness :
    List.Pairwise (fun a b : Time × Key => a.1 ≤ b.1) heapC5 ∧
    (((∃ m, (cleanLoop heapC5 emC5 kvC5 5 0).1 = Except.ok m) →
        ∀ p ∈ (cleanLoop heapC5 emC5 kvC5 5 0).2.1, (5 : Time) < p.1) ∧
      ((∀ k t, alookup emC5 k = some t → t ≤ 5 → (alookup kvC5 k).isSome = true) →
        ∃ m, (cleanLoop heapC5 emC5 kvC5 5 0).1 = Except.ok m) ∧
      (∀ e k rest, heapC5 = (e, k) :: rest → e ≤ 5 →
        alookup emC5 k = some e → alookup kvC5 k = none →
        cleanLoop heapC5 emC5 kvC5 5 0 = (.error .keyError, rest, aerase emC5 k, kvC5))) :=
  ⟨by decide, C5_sweep heapC5 emC5 kvC5 5 (by decide)⟩

/-- C6 (confirmed): `SETEX k v t` followed by plain `SET k v2` leaves
`k` unexpired.  `SET` clears the pending TTL first (the expiry-map entry
for `k` is gone), so `GET k` returns `v2` at every later time; and the
reclamation sweep — which validates each popped heap entry against the
authoritative map — skips the now-stale heap entry, leaving `k` bound to
`v2`, so `GET k` still returns `v2` after any sweep. -/
theorem C6_set_after_setex (st : ServerState) (k : Key) (v v2 : PyObj)
    (t now0 now1 now2 : Time) :
    kv_get k ((kv_set k v2 ((kv_setex k v t st now0).2)).2) now1 = some v2 ∧
    alookup ((kv_set k v2 ((kv_setex k v t st now0).2)).2).expiry_map k = none ∧
    alookup ((clean_expired ((kv_set k v2 ((kv_setex k v t st now0).2)).2) now1).2).kv k =
      some ⟨py_datatype v2, v2⟩ ∧
    kv_get k ((clean_expired ((kv_set k v2 ((kv_setex k v t st now0).2)).2) now1).2) now2 =
      some v2 := by
  have hkv : ∀ s : ServerState,
      alookup ((kv_set k v2 s).2).kv k = some ⟨py_datatype v2, v2⟩ := by
    intro s
    simp [kv_set, unexpire, alookup_ainsert_self]
  have hem : ∀ s : ServerState,
      alookup ((kv_set k v2 s).2).expiry_map k = none := by
    intro s
    simp [kv_set, unexpire, alookup_aerase_self]
  have hpres := cleanLoop_preserve ((kv_set k v2 ((kv_setex k v t st now0).2)).2).expiry
    ((kv_set k v2 ((kv_setex k v t st now0).2)).2).expiry_map
    ((kv_set k v2 ((kv_setex k v t st now0).2)).2).kv now1 0 k (hem _)
  refine ⟨?_, hem _, ?_, ?_⟩
  · simp [kv_get, hkv _, check_expired, hem _]
  · simp only [clean_expired]
    rw [hpres.1, hkv _]
  · simp only [clean_expired, kv_get, check_expired]
    simp only [hpres.1, hpres.2]
    simp [hkv _]

/-- The on-disk snapshot refuting C7: it binds `"a"` to the integer 1. -/
def diskC7 : DiskState := ⟨[("a", ⟨KV, .int 1⟩)], []⟩

/-- The in-memory state refuting C7: it binds `"a"` to the integer 2. -/
def memC7 : ServerState := ⟨[("a", ⟨KV, .int 2⟩)], [], [], []⟩

/-- C7 counterexample: after the `MERGE` path (`_set_state` with
`merge=True`) the collision key `"a"` holds the in-memory value 2, not
the on-disk value 1 that "on-disk entry wins" requires. -/
theorem C7_counterexample :
    alookup (set_state diskC7 memC7 true).kv "a" = some ⟨KV, PyObj.int 2⟩ ∧
    (⟨KV, PyObj.int 2⟩ : Value) ≠ ⟨KV, PyObj.int 1⟩ := by
  refine ⟨rfl, ?_⟩
  intro h
  injection h with h1 h2
  injection h2 with h3
  omega

/-- C7 (amended): the `MERGE` path loads the snapshot and sets the
keyspace to the union of the on-disk and in-memory keyspaces in which
the IN-MEMORY entry wins whenever both contain the same key (the source
applies `original.update(updates)` to the loaded dict with the in-memory
dict as the updates), and replaces the schedule with the on-disk
schedule. -/
theorem C7_merge (disk : DiskState) (st : ServerState)
    (hnd : (st.kv.map Prod.fst).Nodup) :
    (∀ k v, alookup st.kv k = some v →
      alookup (set_state disk st true).kv k = some v) ∧
    (∀ k, alookup st.kv k = none →
      alookup (set_state disk st true).kv k = alookup disk.kv k) ∧
    (set_state disk st true).schedule = disk.schedule := by
  refine ⟨?_, ?_, rfl⟩
  · intro k v hv
    exact alookup_dict_update_left st.kv disk.kv k v hnd hv
  · intro k hv
    exact alookup_dict_update_right st.kv disk.kv k hv

/-- C7 witness: the amended merge theorem applied to the concrete
states `diskC7` and `memC7`. -/
theorem C7_merge_witness :
    (memC7.kv.map Prod.fst).Nodup ∧
    alookup (set_state diskC7 memC7 true).kv "a" = some ⟨KV, PyObj.int 2⟩ ∧
    (set_state diskC7 memC7 true).schedule = diskC7.schedule :=
  ⟨by decide, (C7_merge diskC7 memC7 (by decide)).1 "a" ⟨KV, PyObj.int 2⟩ rfl,
    (C7_merge diskC7 memC7 (by decide)).2.2⟩

/-- The state refuting C8: `"a"` holds a set, `"b"` holds a hash. -/
def stC8 : ServerState :=
  ⟨[("a", ⟨SET, .set [.int 1, .int 2]⟩), ("b", ⟨HASH, .dict []⟩)], [], [], []⟩

/-- C8 (code_bug): `SINTERSEC a b` with `"b"` holding a hash does not
raise the intended type error.  The loop's `check_expired(SET, key)`
call is a no-op (it passes the datatype constant where the key belongs),
and `src &= self._kv[b].value` then raises an unhandled `TypeError` —
never a `CmdError` — exactly the slip §9 of the spec flags; the
identical loop runs inside `SINTERSTORE`. -/
theorem C8_sinter_type_check_code_bug :
    sintersec "a" ["b"] stC8 0 = (.error .typeError, stC8) ∧
    ∀ m, (Except.error PyErr.typeError : Except PyErr (List PyObj)) ≠
      .error (.cmdError m) := by
  refine ⟨rfl, ?_⟩
  intro m h
  injection h with h1
  exact PyErr.noConfusion h1

/-- Python slicing `l[0:]` (omitted end) spans the whole list. -/
theorem pySlice_zero_none {α : Type} (l : List α) : pySlice l 0 none = l := by
  simp only [pySlice]
  rw [if_neg (lt_irrefl 0), min_eq_left (Int.natCast_nonneg _)]
  simp

/-- Python slicing `l[0:-1]` keeps everything but the last element: the
negative end index counts from the tail and is exclusive. -/
theorem pySlice_zero_neg_one {α : Type} (l : List α) :
    pySlice l 0 (some (-1)) = l.take (l.length - 1) := by
  simp only [pySlice]
  rw [if_neg (lt_irrefl 0), min_eq_left (Int.natCast_nonneg _),
    if_pos (by norm_num : (-1 : Int) < 0)]
  have h1 : (max ((l.length : Int) + (-1)) 0 - 0).toNat = l.length - 1 := by omega
  rw [h1]
  simp

/-- C9 counterexample: after `RPUSH q x y z` (which returns 3),
`LRANGE q 0 -1` returns only `[x, y]` — Python slicing excludes the
element at the negative end index — not the complete list `[x, y, z]`
the claim requires. -/
theorem C9_counterexample :
    (rpush "q" [PyObj.bytes "x", PyObj.bytes "y", PyObj.bytes "z"] initState 0).1 =
      .ok 3 ∧
    (lrange "q" 0 (some (-1))
        ((rpush "q" [PyObj.bytes "x", PyObj.bytes "y", PyObj.bytes "z"] initState 0).2) 0).1 =
      .ok [PyObj.bytes "x", PyObj.bytes "y"] ∧
    [PyObj.bytes "x", PyObj.bytes "y"] ≠
      [PyObj.bytes "x", PyObj.bytes "y", PyObj.bytes "z"] := by
  refine ⟨rfl, rfl, by simp⟩

/-- The server state reached by `RPUSH` on a fresh key: the pre-check
creates the empty `QUEUE` entry and the handler extends it with the
pushed values (used while proving C9). -/
def rpushState (st : ServerState) (k : Key) (xs : List PyObj) : ServerState :=
  { st with kv := ainsert (ainsert st.kv k ⟨QUEUE, PyObj.list []⟩) k ⟨QUEUE, PyObj.list xs⟩ }

/-- C9 (amended): `RPUSH q x y z` on a fresh key returns 3, and `LRANGE`
follows Python sequence slicing: with the end index omitted it spans to
the end of the list, while the negative end index -1 counts from the
tail and is EXCLUSIVE, so `LRANGE q 0 -1` returns every element but the
last — for `[x, y, z]` that is `[x, y]`, not the whole list. -/
theorem C9_lrange (st : ServerState) (k : Key) (xs : List PyObj) (now : Time)
    (hk : alookup st.kv k = none)
    (hm : alookup st.expiry_map k = none) :
    (rpush k xs st now).1 = .ok xs.length ∧
    (lrange k 0 none ((rpush k xs st now).2) now).1 = .ok xs ∧
    (lrange k 0 (some (-1)) ((rpush k xs st now).2) now).1 =
      .ok (xs.take (xs.length - 1)) := by
  have hexp : check_expired st k now = false := by
    simp [check_expired, hm]
  have hcd : check_datatype QUEUE k true none st now =
      (.ok (), { st with kv := ainsert st.kv k ⟨QUEUE, PyObj.list []⟩ }) := by
    unfold check_datatype
    simp [hk, hexp, emptyValue]
  have hrp : rpush k xs st now = (.ok xs.length, rpushState st k xs) := by
    unfold rpush enforce_datatype rpushState
    rw [hcd]
    simp [alookup_ainsert_self]
  have hkB : alookup (rpushState st k xs).kv k = some ⟨QUEUE, PyObj.list xs⟩ :=
    alookup_ainsert_self _ _ _
  have hexpB : check_expired (rpushState st k xs) k now = false := by
    simp [check_expired, rpushState, hm]
  have hcdB : check_datatype QUEUE k true none (rpushState st k xs) now =
      (.ok (), rpushState st k xs) := by
    unfold check_datatype
    simp [hkB, hexpB]
  have hlr : ∀ e, lrange k 0 e (rpushState st k xs) now =
      (.ok (pySlice xs 0 e), rpushState st k xs) := by
    intro e
    unfold lrange enforce_datatype
    rw [hcdB]
    simp [hkB]
  refine ⟨by rw [hrp], ?_, ?_⟩
  · rw [hrp, hlr none, pySlice_zero_none]
  · rw [hrp, hlr (some (-1)), pySlice_zero_neg_one]

/-- C9 witness: the amended theorem applied to a fresh server and the
concrete payload `x y z`. -/
theorem C9_lrange_witness :
    alookup initState.kv "q" = none ∧
    alookup initState.expiry_map "q" = none ∧
    ((rpush "q" [PyObj.bytes "x", PyObj.bytes "y", PyObj.bytes "z"] initState 0).1 = .ok 3 ∧
      (lrange "q" 0 none
          ((rpush "q" [PyObj.bytes "x", PyObj.bytes "y", PyObj.bytes "z"] initState 0).2) 0).1 =
        .ok [PyObj.bytes "x", PyObj.bytes "y", PyObj.bytes "z"] ∧
      (lrange "q" 0 (some (-1))
          ((rpush "q" [PyObj.bytes "x", PyObj.bytes "y", PyObj.bytes "z"] initState 0).2) 0).1 =
        .ok [PyObj.bytes "x", PyObj.bytes "y"]) :=
  ⟨rfl, rfl, C9_lrange initState "q" [PyObj.bytes "x", PyObj.bytes "y", PyObj.bytes "z"] 0 rfl rfl⟩

/-- C10 (code_bug): `ADD`/`READ` never accept any timestamp.
`_decode_timestamp` first calls `decode(timestamp)`, which raises
`TypeError` on every input (its `isinstance(s, encode)` passes a
function where a type is required), so even the well-formed timestamp
`"2099-01-01 00:00:00"` makes `ADD` fail with an unhandled `TypeError` —
it neither pushes onto the schedule and returns 1, nor raises the
claimed `CmdError` — and `READ` fails identically. -/
theorem C10_timestamp_code_bug :
    schedule_add (PyObj.bytes "2099-01-01 00:00:00") (PyObj.bytes "payload") initState =
      (.error .typeError, initState) ∧
    schedule_read (PyObj.bytes "2099-01-01 00:00:00") initState =
      (.error .typeError, initState) ∧
    ∀ m, (Except.error PyErr.typeError : Except PyErr Nat) ≠ .error (.cmdError m) := by
  refine ⟨rfl, rfl, ?_⟩
  intro m h
  injection h with h1
  exact PyErr.noConfusion h1
